import Mathlib

/-!
Verification of the Linkplayctl client (`linkplayctl/client.py`) command
translation layer.

The client is embedded shallowly: a device is an oracle mapping the index of
the request (how many requests this operation has already sent) and the
command string to a `Response`; every operation is a function in a small
trace-passing monad `ResM` that records the exact command strings sent, in
order, and returns either a value or a typed error mirroring the Python
exceptions (`APIException`, `AttributeError`, `ValueError`, ...).  JSON
decoding of a response body is abstracted by the `json` field of `Response`,
which records what `json.JSONDecoder().decode` yields on that body (`none`
meaning the body is not valid JSON).
-/

/-- Python exception kinds raised by the client.  `apiException` and
`connectionException` are the library's own `linkplayctl.APIException` /
`ConnectionException`; the others model built-in Python exceptions. -/
inductive Err where
  | apiException (msg : String)
  | connectionException (msg : String)
  | attributeError (msg : String)
  | valueError (msg : String)
  | typeError (msg : String)
  | indexError (msg : String)
  | notImplementedError (msg : String)
deriving DecidableEq, Repr

/-- A JSON value as produced by `json.JSONDecoder().decode` on the bodies the
device sends: a bare integer, a string, or a flat object. -/
inductive JVal where
  | jint (n : Int)
  | jstr (s : String)
  | jdict (entries : List (String × JVal))

/-- An HTTP response: status code, decoded body text, and the result of JSON
decoding the body (`none` when `json.JSONDecoder().decode` would raise). -/
structure Response where
  status : Nat
  content : String
  json : Option JVal

/-- A device oracle: given the number of requests already sent by the current
operation and the command string, the response the device returns. -/
def Device : Type := Nat → String → Response

/-- Trace-passing result monad: a computation takes the list of commands sent
so far and returns the extended list together with a value or an error. -/
def ResM (α : Type) : Type := List String → List String × Except Err α

/-- Return a value without sending anything. -/
def ResM.pure {α : Type} (a : α) : ResM α := fun tr => (tr, Except.ok a)

/-- Sequence two computations; an error short-circuits but the commands sent
before it remain in the trace. -/
def ResM.bind {α β : Type} (x : ResM α) (f : α → ResM β) : ResM β := fun tr =>
  match x tr with
  | (tr', Except.ok a) => f a tr'
  | (tr', Except.error e) => (tr', Except.error e)

/-- Raise a Python exception. -/
def throwRes {α : Type} (e : Err) : ResM α := fun tr => (tr, Except.error e)

/-- Lift a pure `Except` computation. -/
def liftE {α : Type} (x : Except Err α) : ResM α := fun tr => (tr, x)

/-- `Client._send`: issue one HTTP GET for `command` and record it in the
trace; the response is whatever the device oracle answers at this point. -/
def _send (dev : Device) (command : String) : ResM Response :=
  fun tr => (tr ++ [command], Except.ok (dev tr.length command))

/-- Python `try: ... except ValueError: handler` around a computation. -/
def catchValueError {α : Type} (x : ResM α) (handler : ResM α) : ResM α :=
  fun tr =>
    match x tr with
    | (tr', Except.error (Err.valueError _)) => handler tr'
    | other => other

/-- Lookup in a flat JSON object (Python `dict.get`): first binding wins;
the device's JSON objects have no duplicate keys. -/
def jlookup : List (String × JVal) → String → Option JVal
  | [], _ => none
  | (k, v) :: rest, key => if k == key then some v else jlookup rest key

/-- Python `str()` of a decoded JSON value, as used in error messages.  The
`jdict` case is unreachable in every message path modelled here (`int()`
fails on a dict before any message is built). -/
def jvalStr : JVal → String
  | JVal.jint n => toString n
  | JVal.jstr s => s
  | JVal.jdict _ => "dict"

/-- Numeric value of a list of decimal digit characters. -/
def natVal (cs : List Char) : Nat :=
  cs.foldl (fun a c => 10 * a + (c.toNat - 48)) 0

/-- Python `int(s)` on a string: an optional sign followed by one or more
decimal digits (surrounding whitespace and underscores are not modelled;
no input in this development uses them). -/
def pyIntStr (s : String) : Option Int :=
  match s.toList with
  | '+' :: rest =>
    if rest ≠ [] ∧ rest.all Char.isDigit then some (Int.ofNat (natVal rest)) else none
  | '-' :: rest =>
    if rest ≠ [] ∧ rest.all Char.isDigit then some (-(Int.ofNat (natVal rest))) else none
  | rest =>
    if rest ≠ [] ∧ rest.all Char.isDigit then some (Int.ofNat (natVal rest)) else none

/-- Python `int(v)` on a decoded JSON value: identity on integers, string
parsing on strings (`ValueError` on failure), `TypeError` on a dict. -/
def pyIntOfJVal : JVal → Except Err Int
  | JVal.jint n => Except.ok n
  | JVal.jstr s =>
    match pyIntStr s with
    | some n => Except.ok n
    | none => Except.error (Err.valueError ("invalid literal for int() with base 10: '" ++ s ++ "'"))
  | JVal.jdict _ => Except.error (Err.typeError "int() argument must be a string or a number, not 'dict'")

/-- Python `int(info.get(key))` on a decoded JSON value `info`: `.get` on a
non-dict raises `AttributeError`; a missing key makes `int(None)` raise
`TypeError`; otherwise the value is converted. -/
def pyIntField (j : JVal) (key : String) : Except Err Int :=
  match j with
  | JVal.jdict d =>
    match jlookup d key with
    | none => Except.error (Err.typeError "int() argument must be a string or a number, not 'NoneType'")
    | some v => pyIntOfJVal v
  | _ => Except.error (Err.attributeError "object has no attribute 'get'")

/-- Split a character list at the first `'.'`, if any. -/
def splitAtDot (cs : List Char) : List Char × Option (List Char) :=
  match cs.span (fun c => c ≠ '.') with
  | (pre, []) => (pre, none)
  | (pre, _ :: post) => (pre, some post)

/-- Python `int(math.floor(float(s)))` on a string: an optional sign and a
plain decimal literal (digits with an optional fractional part, at least one
digit in total); `none` models the `ValueError` from `float(s)`.  Exponent,
`inf`/`nan` and whitespace forms of `float` are not modelled; no input in
this development uses them. -/
def parseFloorFloat (s : String) : Option Int :=
  let cs := s.toList
  let signed : Bool × List Char :=
    match cs with
    | '+' :: r => (false, r)
    | '-' :: r => (true, r)
    | r => (false, r)
  let neg := signed.1
  let (pre, post?) := splitAtDot signed.2
  let post := post?.getD []
  if pre.all Char.isDigit && post.all Char.isDigit && (!pre.isEmpty || !post.isEmpty) then
    let n : Int := Int.ofNat (natVal pre)
    some (if neg then (if post.any (fun c => c ≠ '0') then -n - 1 else -n) else n)
  else none

/-- Value of a hexadecimal digit character, if it is one. -/
def hexDigitVal (c : Char) : Option Nat :=
  if '0' ≤ c ∧ c ≤ '9' then some (c.toNat - 48)
  else if 'a' ≤ c ∧ c ≤ 'f' then some (c.toNat - 87)
  else if 'A' ≤ c ∧ c ≤ 'F' then some (c.toNat - 55)
  else none

/-- `bytearray.fromhex` on a character list: pairs of hex digits, with spaces
allowed between pairs; `none` models its `ValueError`. -/
def fromhexChars : List Char → Option (List Nat)
  | [] => some []
  | ' ' :: rest => fromhexChars rest
  | c1 :: c2 :: rest =>
    match hexDigitVal c1, hexDigitVal c2 with
    | some h, some l => (fromhexChars rest).map (fun bs => (16 * h + l) :: bs)
    | _, _ => none
  | _ => none

/-- `bytearray.fromhex` on a string. -/
def fromhex (s : String) : Option (List Nat) := fromhexChars s.toList

/-- The string made of the given ASCII byte values. -/
def asciiString (bs : List Nat) : String :=
  String.mk (bs.map (fun b => Char.ofNat b))

/-- `bytes.decode()` (UTF-8) on a byte list, modelled on the ASCII subset:
bytes ≥ 0x80, where multi-byte UTF-8 sequences would have to be decoded, are
conservatively treated as failing.  Every claim proved below concerns either
printable-ASCII content or invalid hex, where this model and UTF-8 agree
(a decode failure is caught and the original string returned). -/
def asciiDecode (bs : List Nat) : Option String :=
  if bs.all (fun b => b < 128) then some (asciiString bs) else none

/-- `Client._dehex`: decode `hex_string` as hex-encoded text if possible,
otherwise return it unmodified (both `ValueError` from `fromhex` and
`UnicodeDecodeError` — a subclass of `ValueError` — from `.decode()` are
caught). -/
def _dehex (s : String) : String :=
  match fromhex s with
  | none => s
  | some bs =>
    match asciiDecode bs with
    | some t => t
    | none => s

/-- Dictionary lookup by key (Python `table[name]`, first binding wins). -/
def lookupByKey {β : Type} [BEq β] (table : List (String × β)) (key : String) : Option β :=
  match table.find? (fun p => p.1 == key) with
  | some p => some p.2
  | none => none

/-- Lookup by value, modelling `{v: k for k, v in table.items()}[code]`.
With duplicate values the Python inverse dict keeps the last binding while
`find?` keeps the first; all five tables are proved injective below, so the
two agree. -/
def lookupByValue {β : Type} [BEq β] (table : List (String × β)) (v : β) : Option String :=
  match table.find? (fun p => p.2 == v) with
  | some p => some p.1
  | none => none

/-- Split a character list at every `':'` (helper for Python `split(':')`). -/
def splitColonChars : List Char → List (List Char)
  | [] => [[]]
  | ':' :: rest => [] :: splitColonChars rest
  | c :: rest =>
    match splitColonChars rest with
    | [] => [[c]]
    | p :: ps => (c :: p) :: ps

/-- Python `s.split(':')`. -/
def pySplitColon (s : String) : List String :=
  (splitColonChars s.toList).map (fun cs => String.mk cs)

/-- Python `l[i]` on a list (raises `IndexError` when out of range). -/
def pyIdx (l : List String) (i : Nat) : Except Err String :=
  match l.get? i with
  | some s => Except.ok s
  | none => Except.error (Err.indexError "list index out of range")

/-- `Client._equalizer_modes`. -/
def equalizerModes : List (String × Int) :=
  [("off", 0), ("classical", 1), ("pop", 2), ("jazz", 3), ("vocal", 4)]

/-- `Client._player_modes`. -/
def playerModes : List (String × Int) :=
  [("none", 0), ("airplay", 1), ("dlna", 2), ("wiimu", 10), ("wiimu-local", 11),
   ("wiimu-station", 12), ("wiimu-radio", 13), ("wiimu-songlist", 14), ("wiimu-max", 19),
   ("http", 20), ("http-local", 21), ("http-max", 29), ("alarm", 30), ("line-in", 40),
   ("bluetooth", 41), ("ext-local", 42), ("optical", 43), ("line-in-max", 49),
   ("mirror", 50), ("talk", 60), ("slave", 99)]

/-- `Client._loop_modes`. -/
def loopModes : List (String × Int) :=
  [("repeat:off:shuffle:off", -1), ("repeat:all:shuffle:off", 0), ("repeat:one:shuffle:off", 1),
   ("repeat:off:shuffle:on", 3), ("repeat:all:shuffle:on", 2)]

/-- `Client._wifi_statuses`. -/
def wifiStatuses : List (String × String) :=
  [("connecting", "PROCESS"), ("error-password", "PAIRFAIL"),
   ("disconnected", "FAIL"), ("connected", "ok")]

/-- `Client._auth_types`. -/
def authTypes : List (String × Int) := [("off", 0), ("psk", 1)]

/-- `Client._json_decode` applied to a response: return the decoded JSON
value, or raise `APIException` when the body is not valid JSON. -/
def _json_decode (r : Response) : Except Err JVal :=
  match r.json with
  | some j => Except.ok j
  | none => Except.error (Err.apiException ("Expected JSON from API, got: '" ++ r.content ++ "'"))

/-- `Client._player_info`: JSON-decode the response to `getPlayerStatus`. -/
def _player_info (dev : Device) : ResM JVal :=
  ResM.bind (_send dev "getPlayerStatus") (fun r => liftE (_json_decode r))

/-- `int(info.get(key))` on the decoded `getPlayerStatus` (or similar)
response `r`, as a pure function of the response. -/
def fieldOf (r : Response) (key : String) : Except Err Int :=
  match r.json with
  | none => Except.error (Err.apiException ("Expected JSON from API, got: '" ++ r.content ++ "'"))
  | some j => pyIntField j key

/-- `Client._reboot`: send `reboot`; require status 200 and body `"OK"`. -/
def _reboot (dev : Device) : ResM String :=
  ResM.bind (_send dev "reboot") (fun r =>
    if r.status ≠ 200 ∨ r.content ≠ "OK" then
      throwRes (Err.apiException ("Failed to reboot: Status " ++ toString r.status ++ " Content: " ++ r.content))
    else ResM.pure r.content)

/-- `Client._check`: probe liveness via `_player_info`; `APIException` or
`ConnectionException` is swallowed and reported as `false`, and the result is
`true` exactly when the decoded info is a dict containing a `vol` key. -/
def _check (dev : Device) : ResM Bool :=
  fun tr =>
    match _player_info dev tr with
    | (tr', Except.ok info) =>
      (tr', Except.ok (match info with
        | JVal.jdict d => (jlookup d "vol").isSome
        | _ => false))
    | (tr', Except.error (Err.apiException _)) => (tr', Except.ok false)
    | (tr', Except.error (Err.connectionException _)) => (tr', Except.ok false)
    | (tr', Except.error e) => (tr', Except.error e)

/-- The `_check` outcome as a pure function of the `getPlayerStatus`
response. -/
def checkOf (r : Response) : Bool :=
  match r.json with
  | some (JVal.jdict d) => (jlookup d "vol").isSome
  | some _ => false
  | none => false

/-- The `APIException` message `_safe_reboot` raises when it gives up: it
formats `max_retries` itself, not the number of attempts actually made. -/
def safeRebootFailMsg (maxRetries : Nat) : String :=
  "Failed to bring device back up after " ++ toString maxRetries ++ " reboot attempts. Giving up."

/-- One round of the `_safe_reboot` loop body (`while try_count <=
max_retries+1`): send `reboot`, probe with `_check`, break on success, raise
when `try_count >= max_retries+1`, otherwise retry with `try_count + 1`.
The model covers `max_retries ≥ 0` (the `max_retries < 0` unlimited mode is
outside every claim); the loop body then runs at most `max_retries + 1`
times, so calling with fuel `max_retries + 1` makes the zero-fuel branch
unreachable — it returns the loop's normal exit value `"OK"`. -/
def _safe_rebootGo (dev : Device) (maxRetries : Nat) : Nat → Nat → ResM String
  | _, 0 => ResM.pure "OK"
  | tryCount, fuel + 1 =>
    ResM.bind (_reboot dev) (fun _ =>
    ResM.bind (_check dev) (fun up =>
    if up then ResM.pure "OK"
    else if maxRetries + 1 ≤ tryCount then
      throwRes (Err.apiException (safeRebootFailMsg maxRetries))
    else _safe_rebootGo dev maxRetries (tryCount + 1) fuel))

/-- `Client._safe_reboot` for a non-negative retry bound. -/
def _safe_reboot (dev : Device) (maxRetries : Nat) : ResM String :=
  _safe_rebootGo dev maxRetries 1 (maxRetries + 1)

/-- The sequence of commands `maxRetries + 1` failing reboot rounds send. -/
def blocks : Nat → List String
  | 0 => []
  | m + 1 => "reboot" :: "getPlayerStatus" :: blocks m

/-- Python `value.startswith('+') or value.startswith('-')`: whether the
string begins with an explicit sign. -/
def pyStartsSign (s : String) : Bool :=
  match s.toList with
  | '+' :: _ => true
  | '-' :: _ => true
  | _ => false

/-- A volume argument as passed by a caller: a Python `int` or `str`. -/
inductive VolArg where
  | intV (n : Int)
  | strV (s : String)

/-- Python `str(value)` of a volume argument, for error messages. -/
def volArgStr : VolArg → String
  | VolArg.intV n => toString n
  | VolArg.strV s => s

/-- `Client._volume()` with no argument: `int(player_info.get("vol"))`. -/
def _volumeGet (dev : Device) : ResM Int :=
  ResM.bind (_player_info dev) (fun info => liftE (pyIntField info "vol"))

/-- The body of the `try:` block in `Client._volume(value)`: for a signed
string, read the current volume first (a network request!) and add the
parsed delta; otherwise parse the absolute value; clamp to [0, 100].
A parse failure is `float()`'s `ValueError`. -/
def computeNewVolume (dev : Device) (value : VolArg) : ResM Int :=
  match value with
  | VolArg.strV s =>
    if pyStartsSign s then
      ResM.bind (_volumeGet dev) (fun cur =>
        match parseFloorFloat s with
        | some d => ResM.pure (max 0 (min 100 (cur + d)))
        | none => throwRes (Err.valueError ("could not convert string to float: '" ++ s ++ "'")))
    else
      match parseFloorFloat s with
      | some n => ResM.pure (max 0 (min 100 n))
      | none => throwRes (Err.valueError ("could not convert string to float: '" ++ s ++ "'"))
  | VolArg.intV n => ResM.pure (max 0 (min 100 n))

/-- `Client._volume(value)`: compute the clamped volume (`except ValueError`
turns into `AttributeError`), send `setPlayerCmd:vol:<v>`, require
status 200. -/
def _volumeSet (dev : Device) (value : VolArg) : ResM String :=
  ResM.bind
    (catchValueError (computeNewVolume dev value)
      (throwRes (Err.attributeError
        ("Volume must be between 0 and 100 or -100 to +100, inclusive, not '" ++ volArgStr value ++ "'"))))
    (fun newVolume =>
  ResM.bind (_send dev ("setPlayerCmd:vol:" ++ toString newVolume)) (fun r =>
    if r.status ≠ 200 then
      throwRes (Err.apiException ("Failed to set volume to '" ++ toString newVolume ++ "'"))
    else ResM.pure r.content))

/-- `Client._quiet_reboot_volume`. -/
def quietRebootVolume : Int := 1

/-- `Client.quiet_reboot`: save the volume, set and verify the quiet minimum
(abort with `APIException` on mismatch, before any reboot), run
`_safe_reboot()` (default bound 3), restore and verify the old volume. -/
def quiet_reboot (dev : Device) : ResM String :=
  ResM.bind (_volumeGet dev) (fun oldVolume =>
  ResM.bind (_volumeSet dev (VolArg.intV quietRebootVolume)) (fun _ =>
  ResM.bind (_volumeGet dev) (fun vchk =>
  if vchk ≠ quietRebootVolume then
    throwRes (Err.apiException "Failed to set volume to minimum before quiet reboot")
  else
    ResM.bind (_safe_reboot dev 3) (fun _ =>
    ResM.bind (_volumeSet dev (VolArg.intV oldVolume)) (fun _ =>
    ResM.bind (_volumeGet dev) (fun vfin =>
    if oldVolume ≠ vfin then
      throwRes (Err.apiException ("Failed to restore old volume '" ++ toString oldVolume ++ "' after reboot"))
    else ResM.pure "OK"))))))

/-- `Client.play(uri)`: `uri` falsy (`None` or empty) sends the bare command;
the body is returned with no status check. -/
def play (dev : Device) (uri : Option String) : ResM String :=
  let suffix := match uri with
    | some u => if u = "" then "" else ":" ++ u
    | none => ""
  ResM.bind (_send dev ("setPlayerCmd:play" ++ suffix)) (fun r => ResM.pure r.content)

/-- `Client.pause`: fixed command, body returned with no status check. -/
def pause (dev : Device) : ResM String :=
  ResM.bind (_send dev "setPlayerCmd:pause") (fun r => ResM.pure r.content)

/-- `Client.stop`. -/
def stop (dev : Device) : ResM String :=
  ResM.bind (_send dev "setPlayerCmd:stop") (fun r => ResM.pure r.content)

/-- `Client.previous`. -/
def previous (dev : Device) : ResM String :=
  ResM.bind (_send dev "setPlayerCmd:prev") (fun r => ResM.pure r.content)

/-- `Client.next` (named `next_track` here; `next` is a reserved word). -/
def next_track (dev : Device) : ResM String :=
  ResM.bind (_send dev "setPlayerCmd:next") (fun r => ResM.pure r.content)

/-- `Client.mute_on`. -/
def mute_on (dev : Device) : ResM String :=
  ResM.bind (_send dev "setPlayerCmd:mute:1") (fun r => ResM.pure r.content)

/-- `Client.mute_off`. -/
def mute_off (dev : Device) : ResM String :=
  ResM.bind (_send dev "setPlayerCmd:mute:0") (fun r => ResM.pure r.content)

/-- `Client.equalizer()` getter: JSON-decode the `getEqualizer` body and map
the code back to a name via the inverted table.  A string value never equals
an int key, so it is a `KeyError` → `APIException`; a dict is unhashable
(`TypeError`). -/
def equalizerGet (dev : Device) : ResM String :=
  ResM.bind (_send dev "getEqualizer") (fun r =>
  ResM.bind (liftE (_json_decode r)) (fun value =>
    match value with
    | JVal.jint n =>
      match lookupByValue equalizerModes n with
      | some mode => ResM.pure mode
      | none => throwRes (Err.apiException ("Received unknown equalizer mode value '" ++ toString n ++ "'"))
    | JVal.jstr s => throwRes (Err.apiException ("Received unknown equalizer mode value '" ++ s ++ "'"))
    | JVal.jdict _ => throwRes (Err.typeError "unhashable type: 'dict'")))

/-- `Client.equalizer(mode)` setter: unknown names raise `AttributeError`
before anything is sent; otherwise send the mapped code, require 200. -/
def equalizerSet (dev : Device) (mode : String) : ResM String :=
  match lookupByKey equalizerModes mode with
  | none =>
    throwRes (Err.attributeError
      ("Equalizer mode must be one of [off classical pop jazz vocal], not '" ++ mode ++ "'"))
  | some modeValue =>
    ResM.bind (_send dev ("setPlayerCmd:equalizer:" ++ toString modeValue)) (fun r =>
      if r.status ≠ 200 then
        throwRes (Err.apiException
          ("Failed to set equalizer to mode '" ++ mode ++ "' (value '" ++ toString modeValue ++ "'"))
      else ResM.pure r.content)

/-- `Client.wifi_status`: map the raw `wlanGetConnectState` body through the
inverted status table; unknown bodies raise `APIException`. -/
def wifi_status (dev : Device) : ResM String :=
  ResM.bind (_send dev "wlanGetConnectState") (fun r =>
    match lookupByValue wifiStatuses r.content with
    | some k => ResM.pure k
    | none => throwRes (Err.apiException ("Received unrecognized wifi status: '" ++ r.content ++ "'")))

/-- `Client.wifi_auth(auth_type, new_pass)` setter: unknown auth types raise
`APIException` before anything is sent; a truthy type with a falsy password
raises; due to the conditional binding to the whole string, a `None`
password sends the empty command. -/
def wifi_authSet (dev : Device) (authType : String) (newPass : Option String) : ResM String :=
  match lookupByKey authTypes authType with
  | none => throwRes (Err.apiException "Authentication type must be one of [off, psk]")
  | some authValue =>
    if authValue ≠ 0 ∧ (newPass = none ∨ newPass = some "") then
      throwRes (Err.apiException ("Authentication type '" ++ authType ++ "' requires a non-empty password"))
    else
      ResM.bind (_send dev (match newPass with
        | some p => "setNetwork:" ++ toString authValue ++ ":" ++ p
        | none => "")) (fun r => ResM.pure r.content)

/-- `Client.source()` getter: `inverse_player_modes.get(mode)` — an unknown
code yields `None` silently, never an error. -/
def sourceGet (dev : Device) : ResM (Option String) :=
  ResM.bind (_player_info dev) (fun info =>
  ResM.bind (liftE (pyIntField info "mode")) (fun m =>
  ResM.pure (lookupByValue playerModes m)))

/-- `Client._loop()` getter: read the `loop` field of the player info and map
it back to a combined mode name; an unmapped code raises `APIException`
(the `int()` conversion errors themselves propagate uncaught). -/
def _loopGet (dev : Device) : ResM String :=
  ResM.bind (_player_info dev) (fun info =>
    match info with
    | JVal.jdict d =>
      match jlookup d "loop" with
      | none => throwRes (Err.typeError "int() argument must be a string or a number, not 'NoneType'")
      | some loopval =>
        match pyIntOfJVal loopval with
        | Except.error e => throwRes e
        | Except.ok n =>
          match lookupByValue loopModes n with
          | some name => ResM.pure name
          | none => throwRes (Err.apiException ("Received unknown loop mode value '" ++ jvalStr loopval ++ "' from device"))
    | _ => throwRes (Err.attributeError "object has no attribute 'get'"))

/-- `Client._loop(mode)` setter: a known name maps through the table; an
unknown name is parsed as `int(mode)` and, when the number is not one of the
table's codes, silently replaced by `-1`; a non-numeric unknown name raises
`APIException`.  The resulting code is sent with no status check. -/
def _loopSet (dev : Device) (mode : String) : ResM String :=
  let value? : Except Err Int :=
    match lookupByKey loopModes mode with
    | some v => Except.ok v
    | none =>
      match pyIntStr mode with
      | none => Except.error (Err.apiException ("Cannot set unknown loop mode '" ++ mode ++ "'"))
      | some n => Except.ok (if (loopModes.map Prod.snd).contains n then n else -1)
  ResM.bind (liftE value?) (fun value =>
  ResM.bind (_send dev ("setPlayerCmd:loopmode:" ++ toString value)) (fun r => ResM.pure r.content))

/-- `Client.shuffle(value)` setter (string argument): compute the new shuffle
axis from the argument's truthiness, read the current combined mode to keep
its repeat axis, and write the combined mode back. -/
def shuffleSet (dev : Device) (value : String) : ResM String :=
  let sh := if value == "off" || value == "0" || value == "" then "off" else "on"
  ResM.bind (_loopGet dev) (fun lp =>
  ResM.bind (liftE (pyIdx (pySplitColon lp) 1)) (fun repeatS =>
  _loopSet dev ("repeat:" ++ repeatS ++ ":shuffle:" ++ sh)))

/-- `Client.repeat(value)` setter (string argument): `"one"` forces shuffle
off without reading the device; otherwise the current shuffle axis is kept. -/
def repeatSet (dev : Device) (value : String) : ResM String :=
  let rep := if value == "one" then "one"
             else if value == "off" || value == "0" || value == "" then "off" else "all"
  if rep == "one" then _loopSet dev ("repeat:" ++ rep ++ ":shuffle:" ++ "off")
  else
    ResM.bind (_loopGet dev) (fun lp =>
    ResM.bind (liftE (pyIdx (pySplitColon lp) 3)) (fun sh =>
    _loopSet dev ("repeat:" ++ rep ++ ":shuffle:" ++ sh)))

/-- `Client._length`: `int(player_info.get('totlen'))`. -/
def _length (dev : Device) : ResM Int :=
  ResM.bind (_player_info dev) (fun info => liftE (pyIntField info "totlen"))

/-- `Client._position()` getter: `int(player_info.get('curpos'))`. -/
def _positionGet (dev : Device) : ResM Int :=
  ResM.bind (_player_info dev) (fun info => liftE (pyIntField info "curpos"))

/-- `Client._position(newpos_ms)` setter: fetch the total length first, clamp
the requested position to `[0, totlen]`, and send the seek in whole seconds
(`math.floor(newpos_ms / 1000)`; the clamped value is non-negative, so `Nat`
division is the Python floor).  The body is returned with no status check. -/
def _positionSet (dev : Device) (newposMs : Int) : ResM String :=
  ResM.bind (_length dev) (fun totlen =>
    let clamped := max 0 (min totlen newposMs)
    let newpos := clamped.toNat / 1000
    ResM.bind (_send dev ("setPlayerCmd:seek:" ++ toString newpos)) (fun r => ResM.pure r.content))

/-- `Client.back(val)` for an integral number of seconds: rewind by reading
the current position and delegating to the clamped `_position` setter
(`float(val) * 1000` is exactly `val * 1000` for integral `val`). -/
def back (dev : Device) (val : Int) : ResM String :=
  ResM.bind (_positionGet dev) (fun cur => _positionSet dev (cur - val * 1000))

/-- `Client.forward(val)` for an integral number of seconds. -/
def forward (dev : Device) (val : Int) : ResM String :=
  ResM.bind (_positionGet dev) (fun cur => _positionSet dev (cur + val * 1000))

/-- A device that accepts every reboot but whose liveness probe never comes
back (its `getPlayerStatus` body is not JSON). -/
def devAllFail : Device := fun _ cmd =>
  if cmd == "reboot" then { status := 200, content := "OK", json := none }
  else { status := 200, content := "bad", json := none }

/-- A device that accepts reboots and is immediately responsive. -/
def devAllUp : Device := fun _ cmd =>
  if cmd == "reboot" then { status := 200, content := "OK", json := none }
  else { status := 200, content := "info",
         json := some (JVal.jdict [("vol", JVal.jstr "50")]) }

/-- A device that answers every command with status 500. -/
def dev500 : Device := fun _ _ => { status := 500, content := "ERRBODY", json := none }

/-- A device reporting volume 97 and accepting every command. -/
def devVol97 : Device := fun _ cmd =>
  if cmd == "getPlayerStatus" then
    { status := 200, content := "info", json := some (JVal.jdict [("vol", JVal.jstr "97")]) }
  else { status := 200, content := "OK", json := none }

/-- A device whose equalizer query returns the unmapped code 9. -/
def devEq9 : Device := fun _ cmd =>
  if cmd == "getEqualizer" then { status := 200, content := "9", json := some (JVal.jint 9) }
  else { status := 200, content := "OK", json := none }

/-- A device reporting the unmapped player source code 5. -/
def devMode5 : Device := fun _ cmd =>
  if cmd == "getPlayerStatus" then
    { status := 200, content := "info",
      json := some (JVal.jdict [("mode", JVal.jstr "5"), ("vol", JVal.jstr "10")]) }
  else { status := 200, content := "OK", json := none }

/-- A device in loop mode 0 (`repeat:all:shuffle:off`). -/
def devLoop0 : Device := fun _ cmd =>
  if cmd == "getPlayerStatus" then
    { status := 200, content := "info",
      json := some (JVal.jdict [("loop", JVal.jint 0), ("vol", JVal.jstr "20")]) }
  else { status := 200, content := "OK", json := none }

/-- A device at position 5000 ms in a 200000 ms track. -/
def devPos : Device := fun _ cmd =>
  if cmd == "getPlayerStatus" then
    { status := 200, content := "info",
      json := some (JVal.jdict [("curpos", JVal.jstr "5000"), ("totlen", JVal.jstr "200000")]) }
  else { status := 200, content := "OK", json := none }

/-- A device that answers everything with status 200 and body `OK`. -/
def devPlain : Device := fun _ _ => { status := 200, content := "OK", json := none }

/-- Running `_send` extends the trace by the command and returns the oracle's
response at the current request index. -/
theorem send_run (dev : Device) (cmd : String) (tr : List String) :
  _send dev cmd tr = (tr ++ [cmd], Except.ok (dev tr.length cmd)) := rfl

/-- Running `_player_info` sends one `getPlayerStatus` and JSON-decodes. -/
theorem playerInfo_run (dev : Device) (tr : List String) :
  _player_info dev tr
    = (tr ++ ["getPlayerStatus"], _json_decode (dev tr.length "getPlayerStatus")) := rfl

/-- Reading an integer field of the player info sends one `getPlayerStatus`
and applies `fieldOf` to the response. -/
theorem bind_playerInfo_field (dev : Device) (key : String) (tr : List String) :
  ResM.bind (_player_info dev) (fun info => liftE (pyIntField info key)) tr
    = (tr ++ ["getPlayerStatus"], fieldOf (dev tr.length "getPlayerStatus") key) := by
  cases hj : (dev tr.length "getPlayerStatus").json with
  | none => simp [ResM.bind, _player_info, _send, liftE, _json_decode, fieldOf, hj]
  | some j => simp [ResM.bind, _player_info, _send, liftE, _json_decode, fieldOf, hj]

/-- `_volumeGet` run characterization. -/
theorem volumeGet_run (dev : Device) (tr : List String) :
  _volumeGet dev tr = (tr ++ ["getPlayerStatus"], fieldOf (dev tr.length "getPlayerStatus") "vol") :=
  bind_playerInfo_field dev "vol" tr

/-- `_length` run characterization. -/
theorem length_run (dev : Device) (tr : List String) :
  _length dev tr = (tr ++ ["getPlayerStatus"], fieldOf (dev tr.length "getPlayerStatus") "totlen") :=
  bind_playerInfo_field dev "totlen" tr

/-- `_positionGet` run characterization. -/
theorem positionGet_run (dev : Device) (tr : List String) :
  _positionGet dev tr = (tr ++ ["getPlayerStatus"], fieldOf (dev tr.length "getPlayerStatus") "curpos") :=
  bind_playerInfo_field dev "curpos" tr

/-- `_check` sends one `getPlayerStatus` and never raises; its boolean is
`checkOf` of the response. -/
theorem check_run (dev : Device) (tr : List String) :
  _check dev tr = (tr ++ ["getPlayerStatus"], Except.ok (checkOf (dev tr.length "getPlayerStatus"))) := by
  cases hj : (dev tr.length "getPlayerStatus").json with
  | none => simp [_check, _player_info, _send, ResM.bind, liftE, _json_decode, checkOf, hj]
  | some j =>
    cases j <;> simp [_check, _player_info, _send, ResM.bind, liftE, _json_decode, checkOf, hj]

/-- `_reboot` run characterization when the device accepts the reboot. -/
theorem reboot_run (dev : Device) (tr : List String)
    (h1 : (dev tr.length "reboot").status = 200)
    (h2 : (dev tr.length "reboot").content = "OK") :
  _reboot dev tr = (tr ++ ["reboot"], Except.ok "OK") := by
  simp [_reboot, ResM.bind, _send, ResM.pure, throwRes, h1, h2]

/-- `_volumeSet` run characterization once the clamped volume is known. -/
theorem volumeSet_pure_run (dev : Device) (value : VolArg) (w : Int) (tr tr' : List String)
    (hcomp : computeNewVolume dev value tr = (tr', Except.ok w)) :
  _volumeSet dev value tr =
    (tr' ++ ["setPlayerCmd:vol:" ++ toString w],
     if (dev tr'.length ("setPlayerCmd:vol:" ++ toString w)).status = 200 then
       Except.ok (dev tr'.length ("setPlayerCmd:vol:" ++ toString w)).content
     else Except.error (Err.apiException ("Failed to set volume to '" ++ toString w ++ "'"))) := by
  by_cases h : (dev tr'.length ("setPlayerCmd:vol:" ++ toString w)).status = 200 <;>
    simp [_volumeSet, catchValueError, ResM.bind, ResM.pure, _send, throwRes, hcomp, h]

/-- C2.  The claim asserts simple actions fail with `APIError` on any status
other than 200.  In the code `pause`, `stop`, `next`, `previous`, `play` and
the mute toggles return the body with no status check at all; each sends its
fixed command string and returns the decoded body whatever the status is. -/
theorem simple_actions_spec (dev : Device) :
  pause dev [] = (["setPlayerCmd:pause"], Except.ok (dev 0 "setPlayerCmd:pause").content)
  ∧ stop dev [] = (["setPlayerCmd:stop"], Except.ok (dev 0 "setPlayerCmd:stop").content)
  ∧ next_track dev [] = (["setPlayerCmd:next"], Except.ok (dev 0 "setPlayerCmd:next").content)
  ∧ previous dev [] = (["setPlayerCmd:prev"], Except.ok (dev 0 "setPlayerCmd:prev").content)
  ∧ mute_on dev [] = (["setPlayerCmd:mute:1"], Except.ok (dev 0 "setPlayerCmd:mute:1").content)
  ∧ mute_off dev [] = (["setPlayerCmd:mute:0"], Except.ok (dev 0 "setPlayerCmd:mute:0").content)
  ∧ play dev none [] = (["setPlayerCmd:play"], Except.ok (dev 0 "setPlayerCmd:play").content) :=
  ⟨rfl, rfl, rfl, rfl, rfl, rfl, rfl⟩

/-- C2 counterexample.  On a device answering status 500, `pause` still
returns the body as a success — no `APIError` is raised, contradicting the
claim that a non-200 status fails. -/
theorem simple_action_counterexample :
  (dev500 0 "setPlayerCmd:pause").status = 500
  ∧ pause dev500 [] = (["setPlayerCmd:pause"], Except.ok "ERRBODY") :=
  ⟨rfl, rfl⟩

/-- C9.  `_dehex` decodes every valid hex encoding of printable-ASCII bytes
to exactly that text, and returns any non-hex string unchanged (the decode
failure is caught, never propagated). -/
theorem dehex_spec :
  (∀ (s : String) (bs : List Nat), fromhex s = some bs →
    (∀ b ∈ bs, 32 ≤ b ∧ b ≤ 126) → _dehex s = asciiString bs)
  ∧ ∀ s : String, fromhex s = none → _dehex s = s := by
  constructor
  · intro s bs h hb
    have hall : bs.all (fun b => b < 128) = true := by
      rw [List.all_eq_true]
      intro b hbb
      have := hb b hbb
      simp only [decide_eq_true_eq]
      omega
    simp [_dehex, h, asciiDecode, hall]
  · intro s h
    simp [_dehex, h]

/-- C9 witness: `"4f4b"` is the hex encoding of the printable bytes
`[79, 75]` and decodes to `"OK"`. -/
theorem dehex_spec_witness :
  fromhex "4f4b" = some [79, 75] ∧ _dehex "4f4b" = asciiString [79, 75]
  ∧ asciiString [79, 75] = "OK" := by
  refine ⟨rfl, ?_, rfl⟩
  exact dehex_spec.1 "4f4b" [79, 75] rfl (by decide)

/-- C10.  An absolute volume argument — a Python `int`, or a numeric string
without a leading sign — is never rejected: the floor of its value is
clamped to `[0, 100]`, the command for the clamped value is sent, and no
validation error (`AttributeError`) can be raised. -/
theorem absolute_volume_clamp :
  (∀ (dev : Device) (n : Int),
    (_volumeSet dev (VolArg.intV n) []).1 = ["setPlayerCmd:vol:" ++ toString (max 0 (min 100 n))]
    ∧ ∀ m, (_volumeSet dev (VolArg.intV n) []).2 ≠ Except.error (Err.attributeError m))
  ∧ ∀ (dev : Device) (s : String) (x : Int),
      pyStartsSign s = false → parseFloorFloat s = some x →
      (_volumeSet dev (VolArg.strV s) []).1 = ["setPlayerCmd:vol:" ++ toString (max 0 (min 100 x))]
      ∧ ∀ m, (_volumeSet dev (VolArg.strV s) []).2 ≠ Except.error (Err.attributeError m) := by
  constructor
  · intro dev n
    have h := volumeSet_pure_run dev (VolArg.intV n) (max 0 (min 100 n)) [] [] rfl
    rw [h]
    constructor
    · rfl
    · intro m
      split <;> simp
  · intro dev s x hs hp
    have hcomp : computeNewVolume dev (VolArg.strV s) [] = ([], Except.ok (max 0 (min 100 x))) := by
      simp [computeNewVolume, ResM.pure, hs, hp]
    have h := volumeSet_pure_run dev (VolArg.strV s) (max 0 (min 100 x)) [] [] hcomp
    rw [h]
    constructor
    · rfl
    · intro m
      split <;> simp

/-- For a signed delta string that parses, `computeNewVolume` first reads the
current volume (one `getPlayerStatus` request) and clamps the sum. -/
theorem volumeSet_rel_comp (dev : Device) (s : String) (d v : Int) (tr : List String)
    (hs : pyStartsSign s = true) (hp : parseFloorFloat s = some d)
    (hv : fieldOf (dev tr.length "getPlayerStatus") "vol" = Except.ok v) :
  computeNewVolume dev (VolArg.strV s) tr
    = (tr ++ ["getPlayerStatus"], Except.ok (max 0 (min 100 (v + d)))) := by
  simp [computeNewVolume, hs, ResM.bind, volumeGet_run, hv, hp, ResM.pure]

/-- C6.  A relative volume delta `d` in `[-100, 100]` applied at current
volume `v` in `[0, 100]` sends the command for exactly
`clamp(v + d, 0, 100) = max 0 (min 100 (v + d))`, after one current-volume
read. -/
theorem relative_volume_clamp (dev : Device) (s : String) (d v : Int)
    (hs : pyStartsSign s = true) (hd : parseFloorFloat s = some d)
    (hv : fieldOf (dev 0 "getPlayerStatus") "vol" = Except.ok v)
    (hdr : -100 ≤ d ∧ d ≤ 100) (hvr : 0 ≤ v ∧ v ≤ 100) :
  (_volumeSet dev (VolArg.strV s) []).1
    = ["getPlayerStatus", "setPlayerCmd:vol:" ++ toString (max 0 (min 100 (v + d)))] := by
  have hcomp := volumeSet_rel_comp dev s d v [] hs hd hv
  have h := volumeSet_pure_run dev (VolArg.strV s) (max 0 (min 100 (v + d))) []
    ["getPlayerStatus"] hcomp
  rw [h]
  rfl

/-- C6 witness: `volume("+5")` at current volume 97 sends the command for the
clamped absolute volume 100, not 102. -/
theorem relative_volume_clamp_witness :
  (_volumeSet devVol97 (VolArg.strV "+5") []).1 = ["getPlayerStatus", "setPlayerCmd:vol:100"] :=
  relative_volume_clamp devVol97 "+5" 5 97 rfl rfl rfl (by decide) (by decide)

/-- C3 (amended).  An unparseable absolute volume string and an unknown
equalizer mode name raise their validation error before anything is sent
(empty trace); but an unparseable signed delta string first sends the
current-volume query `getPlayerStatus` — one HTTP request — before the
validation error is raised (no set command is ever sent). -/
theorem validation_before_network :
  (∀ (dev : Device) (s : String), pyStartsSign s = false → parseFloorFloat s = none →
    _volumeSet dev (VolArg.strV s) []
      = ([], Except.error (Err.attributeError
          ("Volume must be between 0 and 100 or -100 to +100, inclusive, not '" ++ s ++ "'"))))
  ∧ (∀ (dev : Device) (mode : String), lookupByKey equalizerModes mode = none →
      equalizerSet dev mode []
        = ([], Except.error (Err.attributeError
            ("Equalizer mode must be one of [off classical pop jazz vocal], not '" ++ mode ++ "'"))))
  ∧ ∀ (dev : Device) (s : String), pyStartsSign s = true → parseFloorFloat s = none →
      (_volumeSet dev (VolArg.strV s) []).1 = ["getPlayerStatus"]
      ∧ ∀ w, (_volumeSet dev (VolArg.strV s) []).2 ≠ Except.ok w := by
  refine ⟨?_, ?_, ?_⟩
  · intro dev s hs hp
    simp [_volumeSet, catchValueError, computeNewVolume, hs, hp, ResM.bind, throwRes, volArgStr]
  · intro dev mode h
    simp [equalizerSet, h, throwRes]
  · intro dev s hs hp
    cases hfo : fieldOf (dev 0 "getPlayerStatus") "vol" with
    | ok v =>
      constructor
      · simp [_volumeSet, catchValueError, computeNewVolume, hs, hp, ResM.bind, volumeGet_run,
          hfo, throwRes]
      · intro w
        simp [_volumeSet, catchValueError, computeNewVolume, hs, hp, ResM.bind, volumeGet_run,
          hfo, throwRes]
    | error e =>
      constructor
      · cases e <;> simp [_volumeSet, catchValueError, computeNewVolume, hs, hp, ResM.bind,
          volumeGet_run, hfo, throwRes]
      · intro w
        cases e <;> simp [_volumeSet, catchValueError, computeNewVolume, hs, hp, ResM.bind,
          volumeGet_run, hfo, throwRes]

/-- C3 counterexample.  `volume("+abc")` is not parseable as a signed delta,
yet one HTTP request (`getPlayerStatus`) is sent before the validation error
is raised — the claim that no request is sent is false. -/
theorem volume_validation_counterexample :
  _volumeSet devVol97 (VolArg.strV "+abc") []
    = (["getPlayerStatus"],
       Except.error (Err.attributeError
         "Volume must be between 0 and 100 or -100 to +100, inclusive, not '+abc'"))
  ∧ (["getPlayerStatus"] : List String) ≠ [] :=
  ⟨rfl, by decide⟩

/-- C3 witness: concrete invalid inputs for each conjunct. -/
theorem validation_before_network_witness :
  _volumeSet devVol97 (VolArg.strV "abc") []
    = ([], Except.error (Err.attributeError
        "Volume must be between 0 and 100 or -100 to +100, inclusive, not 'abc'"))
  ∧ equalizerSet devVol97 "bass" []
    = ([], Except.error (Err.attributeError
        "Equalizer mode must be one of [off classical pop jazz vocal], not 'bass'"))
  ∧ (_volumeSet devVol97 (VolArg.strV "+z") []).1 = ["getPlayerStatus"] := by
  refine ⟨?_, ?_, ?_⟩
  · exact validation_before_network.1 devVol97 "abc" rfl rfl
  · exact validation_before_network.2.1 devVol97 "bass" rfl
  · exact (validation_before_network.2.2 devVol97 "+z" rfl rfl).1

/-- C7.  When the read-back after setting the quiet minimum volume differs
from the requested minimum (1), `quiet_reboot` raises `APIException` having
sent only the volume read, the volume set, and the verification read — no
`reboot` command is ever sent. -/
theorem quiet_reboot_abort (dev : Device) (v0 v2 : Int)
    (h0 : fieldOf (dev 0 "getPlayerStatus") "vol" = Except.ok v0)
    (hset : (dev 1 "setPlayerCmd:vol:1").status = 200)
    (h2 : fieldOf (dev 2 "getPlayerStatus") "vol" = Except.ok v2)
    (hne : v2 ≠ 1) :
  quiet_reboot dev []
    = (["getPlayerStatus", "setPlayerCmd:vol:1", "getPlayerStatus"],
       Except.error (Err.apiException "Failed to set volume to minimum before quiet reboot"))
  ∧ "reboot" ∉ ["getPlayerStatus", "setPlayerCmd:vol:1", "getPlayerStatus"] := by
  have hs1 := volumeSet_pure_run dev (VolArg.intV 1) 1 ["getPlayerStatus"]
    ["getPlayerStatus"] rfl
  rw [show ("setPlayerCmd:vol:" ++ toString (1 : Int)) = "setPlayerCmd:vol:1" from rfl] at hs1
  refine ⟨?_, by decide⟩
  simp [quiet_reboot, ResM.bind, volumeGet_run, h0, hs1, hset, hne, quietRebootVolume, throwRes]
  rw [h2]
  simp [hne, throwRes]

/-- C7 witness: a device that keeps reporting volume 97 after the quiet
minimum was requested makes `quiet_reboot` abort with no reboot sent. -/
theorem quiet_reboot_abort_witness :
  quiet_reboot devVol97 []
    = (["getPlayerStatus", "setPlayerCmd:vol:1", "getPlayerStatus"],
       Except.error (Err.apiException "Failed to set volume to minimum before quiet reboot"))
  ∧ "reboot" ∉ ["getPlayerStatus", "setPlayerCmd:vol:1", "getPlayerStatus"] :=
  quiet_reboot_abort devVol97 97 97 rfl rfl rfl (by decide)

/-- C4.  Setting shuffle to `"on"` while the device's loop code has repeat
axis `all` (codes 0 or 2) reads the combined mode and sends the command for
`repeat:all:shuffle:on` (code 2); setting repeat to `"one"` sends the
command for `repeat:one:shuffle:off` (code 1) without consulting the device,
so the prior shuffle state is irrelevant and shuffle is forced off. -/
theorem loop_read_modify_write :
  (∀ (dev : Device) (d : List (String × JVal)) (L : Int),
    (dev 0 "getPlayerStatus").json = some (JVal.jdict d) →
    jlookup d "loop" = some (JVal.jint L) →
    L = 0 ∨ L = 2 →
    shuffleSet dev "on" []
      = (["getPlayerStatus", "setPlayerCmd:loopmode:2"],
         Except.ok (dev 1 "setPlayerCmd:loopmode:2").content))
  ∧ ∀ (dev : Device),
      repeatSet dev "one" []
        = (["setPlayerCmd:loopmode:1"], Except.ok (dev 0 "setPlayerCmd:loopmode:1").content) := by
  constructor
  · intro dev d L h1 h2 hL
    have hlg : ∀ nm, lookupByValue loopModes L = some nm →
        _loopGet dev [] = (["getPlayerStatus"], Except.ok nm) := by
      intro nm hnm
      simp [_loopGet, _player_info, _send, ResM.bind, liftE, _json_decode, h1, h2,
        pyIntOfJVal, hnm, ResM.pure]
    rcases hL with rfl | rfl
    · have h := hlg "repeat:all:shuffle:off" rfl
      simp [shuffleSet, ResM.bind, h, liftE, _loopSet, _send, ResM.pure,
        show pyIdx (pySplitColon "repeat:all:shuffle:off") 1 = Except.ok "all" from rfl,
        show lookupByKey loopModes "repeat:all:shuffle:on" = some 2 from rfl,
        show ("setPlayerCmd:loopmode:" ++ toString (2 : Int)) = "setPlayerCmd:loopmode:2" from rfl]
    · have h := hlg "repeat:all:shuffle:on" rfl
      simp [shuffleSet, ResM.bind, h, liftE, _loopSet, _send, ResM.pure,
        show pyIdx (pySplitColon "repeat:all:shuffle:on") 1 = Except.ok "all" from rfl,
        show lookupByKey loopModes "repeat:all:shuffle:on" = some 2 from rfl,
        show ("setPlayerCmd:loopmode:" ++ toString (2 : Int)) = "setPlayerCmd:loopmode:2" from rfl]
  · intro dev
    rfl

/-- C4 witness: a device in `repeat:all:shuffle:off` (loop code 0) and the
two set operations at concrete inputs. -/
theorem loop_read_modify_write_witness :
  shuffleSet devLoop0 "on" []
    = (["getPlayerStatus", "setPlayerCmd:loopmode:2"],
       Except.ok (devLoop0 1 "setPlayerCmd:loopmode:2").content)
  ∧ repeatSet devLoop0 "one" []
    = (["setPlayerCmd:loopmode:1"], Except.ok (devLoop0 0 "setPlayerCmd:loopmode:1").content) :=
  ⟨loop_read_modify_write.1 devLoop0 [("loop", JVal.jint 0), ("vol", JVal.jstr "20")] 0
      rfl rfl (Or.inl rfl),
   loop_read_modify_write.2 devLoop0⟩

/-- `_positionSet` run characterization: fetch the length, clamp, seek. -/
theorem positionSet_run (dev : Device) (p : Int) (tr : List String) (T : Int)
    (hT : fieldOf (dev tr.length "getPlayerStatus") "totlen" = Except.ok T) :
  _positionSet dev p tr
    = (tr ++ ["getPlayerStatus", "setPlayerCmd:seek:" ++ toString ((max 0 (min T p)).toNat / 1000)],
       Except.ok (dev (tr.length + 1)
         ("setPlayerCmd:seek:" ++ toString ((max 0 (min T p)).toNat / 1000))).content) := by
  simp [_positionSet, ResM.bind, length_run, hT, _send, ResM.pure]

/-- C8.  A position set fetches the total length `T` first and sends the seek
for exactly `max 0 (min T p)` (in whole seconds); a request beyond the total
clamps to the total, a negative request clamps to zero; and `back` /
`forward` read the current position and delegate to the same clamped
logic. -/
theorem position_clamp_spec :
  (∀ (dev : Device) (p T : Int),
     fieldOf (dev 0 "getPlayerStatus") "totlen" = Except.ok T →
     _positionSet dev p []
       = (["getPlayerStatus", "setPlayerCmd:seek:" ++ toString ((max 0 (min T p)).toNat / 1000)],
          Except.ok (dev 1 ("setPlayerCmd:seek:" ++ toString ((max 0 (min T p)).toNat / 1000))).content))
  ∧ (∀ p T : Int, 0 ≤ T → T < p → max 0 (min T p) = T)
  ∧ (∀ p T : Int, p < 0 → max 0 (min T p) = 0)
  ∧ (∀ (dev : Device) (v C T : Int),
      fieldOf (dev 0 "getPlayerStatus") "curpos" = Except.ok C →
      fieldOf (dev 1 "getPlayerStatus") "totlen" = Except.ok T →
      back dev v []
        = (["getPlayerStatus", "getPlayerStatus",
            "setPlayerCmd:seek:" ++ toString ((max 0 (min T (C - v * 1000))).toNat / 1000)],
           Except.ok (dev 2
             ("setPlayerCmd:seek:" ++ toString ((max 0 (min T (C - v * 1000))).toNat / 1000))).content))
  ∧ ∀ (dev : Device) (v C T : Int),
      fieldOf (dev 0 "getPlayerStatus") "curpos" = Except.ok C →
      fieldOf (dev 1 "getPlayerStatus") "totlen" = Except.ok T →
      forward dev v []
        = (["getPlayerStatus", "getPlayerStatus",
            "setPlayerCmd:seek:" ++ toString ((max 0 (min T (C + v * 1000))).toNat / 1000)],
           Except.ok (dev 2
             ("setPlayerCmd:seek:" ++ toString ((max 0 (min T (C + v * 1000))).toNat / 1000))).content) := by
  refine ⟨?_, ?_, ?_, ?_, ?_⟩
  · intro dev p T hT
    exact positionSet_run dev p [] T hT
  · intro p T h1 h2
    rw [min_eq_left h2.le, max_eq_right h1]
  · intro p T h
    exact max_eq_left ((min_le_right T p).trans h.le)
  · intro dev v C T hC hT
    have h := positionSet_run dev (C - v * 1000) ["getPlayerStatus"] T hT
    simp only [List.length_cons, List.length_nil, Nat.zero_add] at h
    simp [back, ResM.bind, positionGet_run, hC, h]
  · intro dev v C T hC hT
    have h := positionSet_run dev (C + v * 1000) ["getPlayerStatus"] T hT
    simp only [List.length_cons, List.length_nil, Nat.zero_add] at h
    simp [forward, ResM.bind, positionGet_run, hC, h]

/-- C8 witness: on a 200000 ms track at position 5000 ms, seeking to
500000 ms clamps to 200000 ms (seek second 200), seeking to −7 ms clamps to
0, and `back(10)` clamps the negative result to 0. -/
theorem position_clamp_spec_witness :
  _positionSet devPos 500000 []
    = (["getPlayerStatus", "setPlayerCmd:seek:200"],
       Except.ok (devPos 1 "setPlayerCmd:seek:200").content)
  ∧ _positionSet devPos (-7) []
    = (["getPlayerStatus", "setPlayerCmd:seek:0"],
       Except.ok (devPos 1 "setPlayerCmd:seek:0").content)
  ∧ back devPos 10 []
    = (["getPlayerStatus", "getPlayerStatus", "setPlayerCmd:seek:0"],
       Except.ok (devPos 2 "setPlayerCmd:seek:0").content) := by
  refine ⟨?_, ?_, ?_⟩
  · exact position_clamp_spec.1 devPos 500000 200000 rfl
  · exact position_clamp_spec.1 devPos (-7) 200000 rfl
  · exact position_clamp_spec.2.2.2.1 devPos 10 5000 200000 rfl rfl

/-- C5 (amended).  All five tables are bijections and encode/decode round-trip
over their domains; unknown device codes raise `APIException` for the
equalizer, loop and wifi-status getters; but the player-source getter
(`inverse_player_modes.get(mode)`) yields `None` silently on unknown codes.
For setters, unknown equalizer names (`AttributeError`), unknown auth types
(`APIException`) and non-numeric unknown loop modes (`APIException`) are
rejected before anything is sent, while an unknown numeric loop value is
silently replaced by `-1` and sent. -/
theorem mode_tables_spec :
  ((equalizerModes.map Prod.fst).Nodup ∧ (equalizerModes.map Prod.snd).Nodup
    ∧ (playerModes.map Prod.fst).Nodup ∧ (playerModes.map Prod.snd).Nodup
    ∧ (loopModes.map Prod.fst).Nodup ∧ (loopModes.map Prod.snd).Nodup
    ∧ (wifiStatuses.map Prod.fst).Nodup ∧ (wifiStatuses.map Prod.snd).Nodup
    ∧ (authTypes.map Prod.fst).Nodup ∧ (authTypes.map Prod.snd).Nodup)
  ∧ ((∀ p ∈ equalizerModes,
        lookupByKey equalizerModes p.1 = some p.2 ∧ lookupByValue equalizerModes p.2 = some p.1)
    ∧ (∀ p ∈ playerModes,
        lookupByKey playerModes p.1 = some p.2 ∧ lookupByValue playerModes p.2 = some p.1)
    ∧ (∀ p ∈ loopModes,
        lookupByKey loopModes p.1 = some p.2 ∧ lookupByValue loopModes p.2 = some p.1)
    ∧ (∀ p ∈ wifiStatuses,
        lookupByKey wifiStatuses p.1 = some p.2 ∧ lookupByValue wifiStatuses p.2 = some p.1)
    ∧ ∀ p ∈ authTypes,
        lookupByKey authTypes p.1 = some p.2 ∧ lookupByValue authTypes p.2 = some p.1)
  ∧ (∀ (dev : Device) (n : Int),
      (dev 0 "getEqualizer").json = some (JVal.jint n) →
      lookupByValue equalizerModes n = none →
      (equalizerGet dev []).2
        = Except.error (Err.apiException ("Received unknown equalizer mode value '" ++ toString n ++ "'")))
  ∧ (∀ (dev : Device) (d : List (String × JVal)) (n : Int),
      (dev 0 "getPlayerStatus").json = some (JVal.jdict d) →
      jlookup d "loop" = some (JVal.jint n) →
      lookupByValue loopModes n = none →
      (_loopGet dev []).2
        = Except.error (Err.apiException
            ("Received unknown loop mode value '" ++ toString n ++ "' from device")))
  ∧ (∀ dev : Device,
      lookupByValue wifiStatuses (dev 0 "wlanGetConnectState").content = none →
      (wifi_status dev []).2
        = Except.error (Err.apiException
            ("Received unrecognized wifi status: '" ++ (dev 0 "wlanGetConnectState").content ++ "'")))
  ∧ (∀ (dev : Device) (d : List (String × JVal)) (n : Int),
      (dev 0 "getPlayerStatus").json = some (JVal.jdict d) →
      jlookup d "mode" = some (JVal.jint n) →
      lookupByValue playerModes n = none →
      (sourceGet dev []).2 = Except.ok none)
  ∧ (∀ (dev : Device) (mode : String),
      lookupByKey equalizerModes mode = none →
      equalizerSet dev mode []
        = ([], Except.error (Err.attributeError
            ("Equalizer mode must be one of [off classical pop jazz vocal], not '" ++ mode ++ "'"))))
  ∧ (∀ (dev : Device) (t : String) (p : Option String),
      lookupByKey authTypes t = none →
      wifi_authSet dev t p []
        = ([], Except.error (Err.apiException "Authentication type must be one of [off, psk]")))
  ∧ (∀ (dev : Device) (s : String),
      lookupByKey loopModes s = none → pyIntStr s = none →
      _loopSet dev s []
        = ([], Except.error (Err.apiException ("Cannot set unknown loop mode '" ++ s ++ "'"))))
  ∧ ∀ (dev : Device) (s : String) (n : Int),
      lookupByKey loopModes s = none → pyIntStr s = some n →
      (loopModes.map Prod.snd).contains n = false →
      (_loopSet dev s []).1 = ["setPlayerCmd:loopmode:-1"] := by
  refine ⟨by decide, ⟨by decide, by decide, by decide, by decide, by decide⟩,
    ?_, ?_, ?_, ?_, ?_, ?_, ?_, ?_⟩
  · intro dev n hj hn
    simp [equalizerGet, ResM.bind, _send, liftE, _json_decode, hj, hn, throwRes]
  · intro dev d n h1 h2 hn
    simp [_loopGet, _player_info, _send, ResM.bind, liftE, _json_decode, h1, h2,
      pyIntOfJVal, hn, throwRes, jvalStr]
  · intro dev hn
    simp [wifi_status, ResM.bind, _send, hn, throwRes]
  · intro dev d n h1 h2 hn
    simp [sourceGet, _player_info, _send, ResM.bind, liftE, _json_decode, h1,
      pyIntField, h2, pyIntOfJVal, ResM.pure, hn]
  · intro dev mode h
    simp [equalizerSet, h, throwRes]
  · intro dev t p h
    simp [wifi_authSet, h, throwRes]
  · intro dev s hk hp
    simp [_loopSet, hk, hp, liftE, ResM.bind, throwRes]
  · intro dev s n hk hp hc
    simp [_loopSet, hk, hp, liftE, ResM.bind, _send, ResM.pure]
    rw [hc]
    rfl

/-- C5 counterexample.  The claim demands that a device-returned code outside
a table's range always raises a protocol error; but the player-source getter
returns no value at all (Python `None`) on the unmapped code 5 — a silent
default, not an `APIException`. -/
theorem mode_tables_counterexample :
  lookupByValue playerModes (5 : Int) = none
  ∧ (sourceGet devMode5 []).2 = Except.ok none :=
  ⟨rfl, rfl⟩

/-- C5 witness: concrete instances of the hypothesis-bearing clauses — the
equalizer getter on unmapped code 9, the round-trip on a table entry, and the
equalizer setter on an unknown name. -/
theorem mode_tables_spec_witness :
  (equalizerGet devEq9 []).2
    = Except.error (Err.apiException "Received unknown equalizer mode value '9'")
  ∧ lookupByKey loopModes "repeat:all:shuffle:on" = some 2
  ∧ lookupByValue loopModes 2 = some "repeat:all:shuffle:on"
  ∧ equalizerSet devEq9 "bass2" []
    = ([], Except.error (Err.attributeError
        "Equalizer mode must be one of [off classical pop jazz vocal], not 'bass2'")) := by
  obtain ⟨-, ⟨-, -, hrt, -, -⟩, heq, -, -, -, hset, -⟩ := mode_tables_spec
  refine ⟨heq devEq9 9 rfl rfl, ?_, ?_, hset devEq9 "bass2" rfl⟩
  · exact (hrt ("repeat:all:shuffle:on", 2) (by decide)).1
  · exact (hrt ("repeat:all:shuffle:on", 2) (by decide)).2

/-- Each failing reboot round contributes exactly one `reboot` command. -/
theorem blocks_count_reboot (m : Nat) : (blocks m).count "reboot" = m := by
  induction m with
  | zero => rfl
  | succ k ih => simp [blocks, List.count_cons, ih]

/-- Failing run of the `_safe_reboot` loop: with every probe down, each
remaining attempt sends `reboot` + `getPlayerStatus`, and the loop ends in
the `APIException` naming `max_retries`. -/
theorem safe_rebootGo_fail (dev : Device) (N : Nat)
    (hrs : ∀ i, (dev i "reboot").status = 200)
    (hrc : ∀ i, (dev i "reboot").content = "OK")
    (hcf : ∀ i, checkOf (dev i "getPlayerStatus") = false) :
  ∀ (fuel tc : Nat) (tr : List String), 1 ≤ tc → tc + fuel = N + 2 → tc ≤ N + 1 →
    _safe_rebootGo dev N tc fuel tr
      = (tr ++ blocks (N + 2 - tc), Except.error (Err.apiException (safeRebootFailMsg N))) := by
  intro fuel
  induction fuel with
  | zero => intro tc tr h1 h2 h3; omega
  | succ f ih =>
    intro tc tr h1 h2 h3
    have hr := reboot_run dev tr (hrs tr.length) (hrc tr.length)
    have hc := check_run dev (tr ++ ["reboot"])
    rw [hcf] at hc
    by_cases hb : N + 1 ≤ tc
    · have hNt : N + 2 - tc = 1 := by omega
      simp [_safe_rebootGo, ResM.bind, hr, hc, if_pos hb, throwRes, hNt, blocks]
    · have ihh := ih (tc + 1) (tr ++ ["reboot"] ++ ["getPlayerStatus"])
        (by omega) (by omega) (by omega)
      have hNt : N + 2 - tc = (N + 2 - (tc + 1)) + 1 := by omega
      simp [_safe_rebootGo, ResM.bind, hr, hc, if_neg hb, hNt, blocks]
      simpa [show N + 2 - (tc + 1) = N + 1 - tc from by omega] using ihh

/-- Succeeding run of the `_safe_reboot` loop: with the probe first up on
attempt `k ≤ N + 1`, the loop sends exactly `k` reboot rounds and breaks
with `"OK"`.  The probe outcome of attempt `j` is the device's behaviour at
request index `2j - 1`, i.e. `probe ((i + 1) / 2)` at request index `i`. -/
theorem safe_rebootGo_succ (dev : Device) (N : Nat) (probe : Nat → Bool) (k : Nat)
    (hrs : ∀ i, (dev i "reboot").status = 200)
    (hrc : ∀ i, (dev i "reboot").content = "OK")
    (hcp : ∀ i, checkOf (dev i "getPlayerStatus") = probe ((i + 1) / 2))
    (hf : ∀ j, 1 ≤ j → j < k → probe j = false)
    (ht : probe k = true) (hk1 : 1 ≤ k) (hkN : k ≤ N + 1) :
  ∀ (fuel tc : Nat) (tr : List String), 1 ≤ tc → tc ≤ k → tc + fuel = N + 2 →
    tr.length = 2 * (tc - 1) →
    _safe_rebootGo dev N tc fuel tr = (tr ++ blocks (k - tc + 1), Except.ok "OK") := by
  intro fuel
  induction fuel with
  | zero => intro tc tr h1 h2 h3 h4; omega
  | succ f ih =>
    intro tc tr h1 h2 h3 h4
    have hr := reboot_run dev tr (hrs tr.length) (hrc tr.length)
    have hc := check_run dev (tr ++ ["reboot"])
    rw [hcp] at hc
    have hlen : (tr ++ ["reboot"]).length + 1 = 2 * tc := by
      simp only [List.length_append, List.length_cons, List.length_nil, h4]
      omega
    rw [hlen, Nat.mul_div_cancel_left tc (by norm_num)] at hc
    by_cases htc : tc = k
    · subst htc
      rw [ht] at hc
      simp [_safe_rebootGo, ResM.bind, hr, hc, ResM.pure, Nat.sub_self, blocks]
    · have hlt : tc < k := lt_of_le_of_ne h2 htc
      rw [hf tc h1 hlt] at hc
      have hb : ¬ (N + 1 ≤ tc) := by omega
      have ihh := ih (tc + 1) (tr ++ ["reboot"] ++ ["getPlayerStatus"])
        (by omega) (by omega) (by omega)
        (by simp only [List.length_append, List.length_cons, List.length_nil, h4]; omega)
      have hbl : k - tc + 1 = (k - (tc + 1) + 1) + 1 := by omega
      simp [_safe_rebootGo, ResM.bind, hr, hc, if_neg hb, hbl, blocks]
      simpa [show k - (tc + 1) + 1 = k - tc from by omega] using ihh

/-- C1 (amended).  For a retry bound `N ≥ 0` on a device that accepts every
reboot command: if the liveness probe fails on every attempt, exactly `N + 1`
reboot commands are sent and the outcome is the `APIException` whose message
reports the retry bound `N` (the code formats `max_retries`, not the `N + 1`
attempts actually made); if the probe first succeeds on attempt
`k ≤ N + 1`, exactly `k` reboot commands are sent and the result is
`"OK"`. -/
theorem safe_reboot_spec (dev : Device) (N : Nat)
    (hrs : ∀ i, (dev i "reboot").status = 200)
    (hrc : ∀ i, (dev i "reboot").content = "OK") :
  ((∀ i, checkOf (dev i "getPlayerStatus") = false) →
    _safe_reboot dev N []
      = (blocks (N + 1), Except.error (Err.apiException (safeRebootFailMsg N)))
    ∧ (blocks (N + 1)).count "reboot" = N + 1)
  ∧ ∀ (probe : Nat → Bool) (k : Nat),
      (∀ i, checkOf (dev i "getPlayerStatus") = probe ((i + 1) / 2)) →
      (∀ j, 1 ≤ j → j < k → probe j = false) → probe k = true → 1 ≤ k → k ≤ N + 1 →
      _safe_reboot dev N [] = (blocks k, Except.ok "OK")
      ∧ (blocks k).count "reboot" = k := by
  constructor
  · intro hcf
    refine ⟨?_, blocks_count_reboot (N + 1)⟩
    have h := safe_rebootGo_fail dev N hrs hrc hcf (N + 1) 1 [] (by omega) (by omega) (by omega)
    simpa [_safe_reboot] using h
  · intro probe k hcp hf ht hk1 hkN
    refine ⟨?_, blocks_count_reboot k⟩
    have h := safe_rebootGo_succ dev N probe k hrs hrc hcp hf ht hk1 hkN (N + 1) 1 []
      (by omega) (by omega) (by omega) (by simp)
    have hk : k - 1 + 1 = k := by omega
    rw [hk] at h
    simpa [_safe_reboot] using h

/-- C1 counterexample.  With retry bound `N = 0` and a probe that never comes
back, one reboot command is sent (one attempt), but the failure message
reports `0` reboot attempts — not the `N + 1 = 1` attempts the claim says it
reports. -/
theorem safe_reboot_counterexample :
  (_safe_reboot devAllFail 0 []).2
    = Except.error (Err.apiException
        "Failed to bring device back up after 0 reboot attempts. Giving up.")
  ∧ (_safe_reboot devAllFail 0 []).1.count "reboot" = 1
  ∧ "Failed to bring device back up after 0 reboot attempts. Giving up."
      ≠ "Failed to bring device back up after 1 reboot attempts. Giving up." := by
  refine ⟨rfl, rfl, by decide⟩

/-- C1 witness: the failing run at bound 1 (2 reboots, message naming 1) and
the immediately-successful run at bound 3 (1 reboot, `"OK"`). -/
theorem safe_reboot_spec_witness :
  (_safe_reboot devAllFail 1 []
     = (blocks 2, Except.error (Err.apiException (safeRebootFailMsg 1)))
   ∧ (blocks 2).count "reboot" = 2)
  ∧ _safe_reboot devAllUp 3 [] = (blocks 1, Except.ok "OK")
  ∧ (blocks 1).count "reboot" = 1 := by
  constructor
  · exact (safe_reboot_spec devAllFail 1 (fun i => rfl) (fun i => rfl)).1 (fun i => rfl)
  · exact (safe_reboot_spec devAllUp 3 (fun i => rfl) (fun i => rfl)).2 (fun _ => true) 1
      (fun i => rfl) (fun j hj hjk => absurd (hj.trans_lt hjk) (lt_irrefl 1)) rfl
      (le_refl 1) (by omega)

/-- C10 witness: `volume(150)` sends the command for 100, `volume(-3)` the
command for 0, and the unsigned numeric string `"150"` also clamps to 100. -/
theorem absolute_volume_clamp_witness :
  (_volumeSet devPlain (VolArg.intV 150) []).1 = ["setPlayerCmd:vol:100"]
  ∧ (_volumeSet devPlain (VolArg.intV (-3)) []).1 = ["setPlayerCmd:vol:0"]
  ∧ (_volumeSet devPlain (VolArg.strV "150") []).1 = ["setPlayerCmd:vol:100"] := by
  refine ⟨?_, ?_, ?_⟩
  · exact (absolute_volume_clamp.1 devPlain 150).1
  · exact (absolute_volume_clamp.1 devPlain (-3)).1
  · exact (absolute_volume_clamp.2 devPlain "150" 150 rfl rfl).1
